import Mathlib

set_option maxRecDepth 40000

/-!
Shallow embedding of the Linux longest-symbol test fixture:
the token-pasting macro chain from lib/longest_symbol.h, the generated
constant functions and static asserts from lib/longest_symbol_kunit.c
and from its earlier header-based revision, and the kselftest module
lib/test_longest_symbol.c.  C token pasting (a##b and the kernel
helper __PASTE) is embedded as string concatenation; stringification of
a fully expanded identifier is the identifier string itself.  Stateful
kernel interaction (kprobes, kallsyms lookups, printing, KUnit
assertions) is embedded as a trace of events computed from an explicit
kernel environment.
-/

namespace LongestSymbol

/-- Modelled from the spec: KSYM_NAME_LEN, the maximum permitted kernel
symbol name length counting the terminating NUL, defined in
include/linux/kallsyms.h which is not part of this fragment; the spec
gives its value as 512. -/
def KSYM_NAME_LEN : Nat := 512

/-- Macro DI from lib/longest_symbol.h line 4: s##name##name. -/
def DI (name : String) : String := "s" ++ name ++ name

/-- Macro DDI from lib/longest_symbol.h line 5: DI(n##name##name). -/
def DDI (name : String) : String := DI ("n" ++ name ++ name)

/-- Macro DDDI from lib/longest_symbol.h line 6: DDI(n##name##name). -/
def DDDI (name : String) : String := DDI ("n" ++ name ++ name)

/-- Macro DDDDI from lib/longest_symbol.h line 7: DDDI(n##name##name). -/
def DDDDI (name : String) : String := DDDI ("n" ++ name ++ name)

/-- Macro DDDDDI from lib/longest_symbol.h line 8: DDDDI(n##name##name). -/
def DDDDDI (name : String) : String := DDDDI ("n" ++ name ++ name)

/-- The seed token passed to DDDDDI in lib/longest_symbol.h line 13. -/
def seedToken : String := "g1h2i3j4k5l6m7n"

/-- Macro LONGEST_SYM_NAME from lib/longest_symbol.h line 13 and
lib/longest_symbol_kunit.c line 24: DDDDDI(g1h2i3j4k5l6m7n). -/
def LONGEST_SYM_NAME : String := DDDDDI seedToken

/-- The kernel token-pasting helper __PASTE(a, b) used by
lib/longest_symbol_kunit.c line 21; it pastes its two arguments into a
single token. -/
def PASTE (a b : String) : String := a ++ b

/-- Macro PLUS1 as redefined in lib/longest_symbol_kunit.c line 21:
__PASTE(name, e). -/
def kunitPLUS1 (name : String) : String := PASTE name "e"

/-- Macro LONGEST_SYM_NAME_PLUS1 from lib/longest_symbol_kunit.c
line 27: PLUS1(LONGEST_SYM_NAME), with the __PASTE based PLUS1.  This
macro exists only in the self-contained KUnit file. -/
def LONGEST_SYM_NAME_PLUS1 : String := kunitPLUS1 LONGEST_SYM_NAME

/-- Identifier of the one-past-the-limit function in the translation
units that use lib/longest_symbol.h (the header-based KUnit revision
and its companion definition file).  There the token
LONGEST_SYM_NAME_PLUS1 written at longest_symbol.h line 20, in the
companion definition file line 9 and in the header-based test file is
not a macro: the header names its macro LONGEST_SYM_PLUS1 (line 16)
and never uses it.  The C preprocessor replaces only exact macro
names, so the identifier is the 22-character literal token itself. -/
def headerPlus1Identifier : String := "LONGEST_SYM_NAME_PLUS1"

/-- sizeof of a C string literal: character count plus terminating NUL. -/
def sizeofStr (s : String) : Nat := s.length + 1

/-- C strlen of a string literal: character count without the NUL. -/
def strlenStr (s : String) : Nat := s.length

/-- The generated function whose identifier is LONGEST_SYM_NAME
(lib/longest_symbol_kunit.c lines 29-32 and the companion definition
file of the header-based revision): it returns 424242. -/
def longestSymFn : Unit → Int := fun _ => 424242

/-- The generated function whose identifier is LONGEST_SYM_NAME_PLUS1
(lib/longest_symbol_kunit.c lines 34-37 and the companion definition
file of the header-based revision): it returns 434343. -/
def longestSymPlus1Fn : Unit → Int := fun _ => 434343

/-- Observable effects emitted by a test case or check while it runs. -/
inductive Event where
  | prInfo (msg : String)
  | kunitWarn (msg : String)
  | kunitAssertTrue (ok : Bool)
  | kunitExpectEq (ok : Bool)
  | kunitFail (msg : String)
  | registerKprobe (symbol : String) (ok : Bool)
  | unregisterKprobe (symbol : String)
  | kallsymsCall (name : String)
  deriving DecidableEq

/-- The kernel facilities the tests interact with: the result of
register_kprobe on kallsyms_lookup_name (deterministic within one test
run), the kallsyms_lookup_name function (0 means not found), and the
result of calling the function located at a given address (none models
an invalid address such as NULL). -/
structure KernelEnv where
  registerKprobeRet : Int
  lookup : String → Nat
  funAt : Nat → Option Int

/-- Calling the function pointer obtained from a kallsyms lookup. -/
def callAt (env : KernelEnv) (addr : Nat) : Option Int := env.funAt addr

end LongestSymbol

namespace LongestSymbol.LongestSymbolKunit

/-- Test case test_longest_symbol from lib/longest_symbol_kunit.c
lines 44-47: KUNIT_EXPECT_EQ(test, 424242, LONGEST_SYM_NAME()). -/
def test_longest_symbol (_env : KernelEnv) : List Event :=
  [Event.kunitExpectEq (longestSymFn () == 424242)]

/-- Test case test_longest_symbol_kallsyms from
lib/longest_symbol_kunit.c lines 49-73.  In the failing-registration
branch the source calls register_kprobe a second time inside
KUNIT_ASSERT_TRUE; registration is deterministic within the run, so the
asserted condition is the same comparison again and the assert passes,
after which KUNIT_FAIL records the failure and the case returns. -/
def test_longest_symbol_kallsyms (env : KernelEnv) : List Event :=
  let regFailed := decide (env.registerKprobeRet < 0)
  if env.registerKprobeRet < 0 then
    [Event.registerKprobe "kallsyms_lookup_name" (!regFailed),
     Event.prInfo "test_longest_symbol_kallsyms: kprobe not registered",
     Event.kunitWarn "test_longest_symbol kallsyms: kprobe not registered",
     Event.registerKprobe "kallsyms_lookup_name" (!regFailed),
     Event.kunitAssertTrue regFailed,
     Event.kunitFail "test_longest_symbol kallsysms: kprobe not registered"]
  else
    [Event.registerKprobe "kallsyms_lookup_name" (!regFailed),
     Event.kunitWarn "test_longest_symbol kallsyms: kprobe registered",
     Event.unregisterKprobe "kallsyms_lookup_name",
     Event.kallsymsCall LONGEST_SYM_NAME,
     Event.kunitExpectEq
       (callAt env (env.lookup LONGEST_SYM_NAME) == some 424242)]

/-- Test case test_longest_symbol_plus1 from lib/longest_symbol_kunit.c
lines 75-78: KUNIT_EXPECT_EQ(test, 434343, LONGEST_SYM_NAME_PLUS1()). -/
def test_longest_symbol_plus1 (_env : KernelEnv) : List Event :=
  [Event.kunitExpectEq (longestSymPlus1Fn () == 434343)]

/-- Test case test_longest_symbol_plus1_kallsyms from
lib/longest_symbol_kunit.c lines 80-103.  The final expectation
compares the looked-up pointer itself with NULL:
KUNIT_EXPECT_EQ(test, NULL, longest_sym_plus1). -/
def test_longest_symbol_plus1_kallsyms (env : KernelEnv) : List Event :=
  let regFailed := decide (env.registerKprobeRet < 0)
  if env.registerKprobeRet < 0 then
    [Event.registerKprobe "kallsyms_lookup_name" (!regFailed),
     Event.prInfo "test_longest_symbol_plus1_kallsyms: kprobe not registered",
     Event.registerKprobe "kallsyms_lookup_name" (!regFailed),
     Event.kunitAssertTrue regFailed,
     Event.kunitFail "test_longest_symbol kallsysms: kprobe not registered"]
  else
    [Event.registerKprobe "kallsyms_lookup_name" (!regFailed),
     Event.kunitWarn "test_longest_symbol_plus1 kallsyms: kprobe registered",
     Event.unregisterKprobe "kallsyms_lookup_name",
     Event.kallsymsCall LONGEST_SYM_NAME_PLUS1,
     Event.kunitExpectEq (decide (env.lookup LONGEST_SYM_NAME_PLUS1 = 0))]

end LongestSymbol.LongestSymbolKunit

namespace LongestSymbol.LongestSymbolKunitV0

/-- Test case test_longest_symbol from the header-based revision of the
KUnit file, lines 15-18: identical to the self-contained version. -/
def test_longest_symbol (_env : KernelEnv) : List Event :=
  [Event.kunitExpectEq (longestSymFn () == 424242)]

/-- Test case test_longest_symbol_kallsyms from the header-based
revision, lines 20-44: same structure as the self-contained version. -/
def test_longest_symbol_kallsyms (env : KernelEnv) : List Event :=
  let regFailed := decide (env.registerKprobeRet < 0)
  if env.registerKprobeRet < 0 then
    [Event.registerKprobe "kallsyms_lookup_name" (!regFailed),
     Event.prInfo "test_longest_symbol_kallsyms: kprobe not registered",
     Event.kunitWarn "test_longest_symbol kallsyms: kprobe not registered",
     Event.registerKprobe "kallsyms_lookup_name" (!regFailed),
     Event.kunitAssertTrue regFailed,
     Event.kunitFail "test_longest_symbol kallsysms: kprobe not registered"]
  else
    [Event.registerKprobe "kallsyms_lookup_name" (!regFailed),
     Event.kunitWarn "test_longest_symbol kallsyms: kprobe registered",
     Event.unregisterKprobe "kallsyms_lookup_name",
     Event.kallsymsCall LONGEST_SYM_NAME,
     Event.kunitExpectEq
       (callAt env (env.lookup LONGEST_SYM_NAME) == some 424242)]

/-- Test case test_longest_symbol_plus1 from the header-based revision,
lines 46-49. -/
def test_longest_symbol_plus1 (_env : KernelEnv) : List Event :=
  [Event.kunitExpectEq (longestSymPlus1Fn () == 434343)]

/-- Test case test_longest_symbol_plus1_kallsyms from the header-based
revision, lines 51-74.  Unlike the self-contained version, the final
expectation calls the looked-up pointer and expects 434343:
KUNIT_EXPECT_EQ(test, 434343, longest_sym_plus1()).  In this file the
token LONGEST_SYM_NAME_PLUS1 is not a macro, so
__stringify(LONGEST_SYM_NAME_PLUS1) yields the 22-character literal
string and that is what the test looks up. -/
def test_longest_symbol_plus1_kallsyms (env : KernelEnv) : List Event :=
  let regFailed := decide (env.registerKprobeRet < 0)
  if env.registerKprobeRet < 0 then
    [Event.registerKprobe "kallsyms_lookup_name" (!regFailed),
     Event.prInfo "test_longest_symbol_plus1_kallsyms: kprobe not registered",
     Event.registerKprobe "kallsyms_lookup_name" (!regFailed),
     Event.kunitAssertTrue regFailed,
     Event.kunitFail "test_longest_symbol kallsysms: kprobe not registered"]
  else
    [Event.registerKprobe "kallsyms_lookup_name" (!regFailed),
     Event.unregisterKprobe "kallsyms_lookup_name",
     Event.kallsymsCall headerPlus1Identifier,
     Event.kunitExpectEq
       (callAt env (env.lookup headerPlus1Identifier) == some 434343)]

end LongestSymbol.LongestSymbolKunitV0

namespace LongestSymbol

/-- Identifier bound to macro LONGEST_SYMBOL in
lib/test_longest_symbol.c line 13. -/
def LONGEST_SYMBOL : String :=
  "start_of_the_longest_symbol_possible__123456789_123456789_123456789_123456789_123456789_123__end_of_the_longest_symbol_possible"

/-- Function check_longest_symbol_exported from
lib/test_longest_symbol.c lines 27-51: registers a kprobe to obtain
kallsyms_lookup_name, unregisters it, looks up LONGEST_SYMBOL and
returns 0 when the lookup yields a non-NULL address, 1 otherwise. -/
def check_longest_symbol_exported (env : KernelEnv) : Int × List Event :=
  let regFailed := decide (env.registerKprobeRet < 0)
  if env.registerKprobeRet < 0 then
    (1, [Event.registerKprobe "kallsyms_lookup_name" (!regFailed),
         Event.prInfo "test_longest_symbol: kprobe not registered"])
  else if env.lookup LONGEST_SYMBOL ≠ 0 then
    (0, [Event.registerKprobe "kallsyms_lookup_name" (!regFailed),
         Event.unregisterKprobe "kallsyms_lookup_name",
         Event.kallsymsCall LONGEST_SYMBOL,
         Event.prInfo ("test_longest_symbol: symbol found: " ++ LONGEST_SYMBOL)])
  else
    (1, [Event.registerKprobe "kallsyms_lookup_name" (!regFailed),
         Event.unregisterKprobe "kallsyms_lookup_name",
         Event.kallsymsCall LONGEST_SYMBOL,
         Event.prInfo "test_longest_symbol: longest_symbol not found"])

/-- Counters of the kselftest module harness, declared by
KSTM_MODULE_GLOBALS() in lib/test_longest_symbol.c line 15. -/
structure KstmState where
  total_tests : Nat
  failed_tests : Nat
  deriving DecidableEq

/-- Modelled from the spec: KSTM_CHECK_ZERO from
tools/testing/selftests/kselftest/module.h, which is not part of this
fragment.  It runs a check, counts it, and counts a failure when the
result is nonzero, matching the claim that the selftest counts a
nonzero return as a check failure. -/
def KSTM_CHECK_ZERO (ret : Int) (st : KstmState) : KstmState :=
  { total_tests := st.total_tests + 1,
    failed_tests := if ret ≠ 0 then st.failed_tests + 1 else st.failed_tests }

/-- Function selftest from lib/test_longest_symbol.c lines 53-62: with
CONFIG_KPROBES enabled it applies KSTM_CHECK_ZERO to the result of
check_longest_symbol_exported; otherwise it only prints a notice. -/
def selftest (kprobesEnabled : Bool) (env : KernelEnv) (st : KstmState) :
    KstmState :=
  if kprobesEnabled then
    KSTM_CHECK_ZERO (check_longest_symbol_exported env).1 st
  else
    st

/-- Modelled from the spec: the address kallsyms associates with the
generated 511-character function in a kernel with this test built in. -/
def longestSymAddr : Nat := 1

/-- Modelled from the spec: kallsyms_lookup_name of a kernel with this
test built in.  kallsyms stores a symbol name in a buffer of
KSYM_NAME_LEN bytes including the terminating NUL, so exactly the
511-character generated function is resolvable; the 512-character one
is not, and the lookup returns 0 for it and for any other name. -/
def kallsymsLookup (name : String) : Nat :=
  if name.length + 1 ≤ KSYM_NAME_LEN ∧ name = LONGEST_SYM_NAME then
    longestSymAddr
  else
    0

/-- Modelled from the spec: calling the function located at a kernel
address; at longestSymAddr sits the generated function returning
424242, every other address (including NULL) is invalid. -/
def kernelFunAt (addr : Nat) : Option Int :=
  if addr = longestSymAddr then some (longestSymFn ()) else none

/-- The kernel environment of a kernel with this test built in, for a
given register_kprobe result. -/
def kernelEnv (regRet : Int) : KernelEnv :=
  { registerKprobeRet := regRet, lookup := kallsymsLookup, funAt := kernelFunAt }

/-- The environment in which registration succeeds. -/
def realEnv : KernelEnv := kernelEnv 0

/-- An event signals a failure exactly when it is a failed KUnit
assertion or expectation, or a KUNIT_FAIL record. -/
def signalsFailure : Event → Bool
  | Event.kunitAssertTrue ok => !ok
  | Event.kunitExpectEq ok => !ok
  | Event.kunitFail _ => true
  | _ => false

/-- An event belongs to the KUnit assertion or expectation channel. -/
def isKunitCheck : Event → Bool
  | Event.kunitAssertTrue _ => true
  | Event.kunitExpectEq _ => true
  | Event.kunitFail _ => true
  | _ => false

/-- A test run passes when no event of its trace signals failure. -/
def testPasses (tr : List Event) : Bool := tr.all (fun e => !signalsFailure e)

/-- Whether a trace performs a kallsyms lookup. -/
def performsLookup (tr : List Event) : Bool :=
  tr.any (fun e => match e with
    | Event.kallsymsCall _ => true
    | _ => false)

/-- Whether a trace records a KUNIT_FAIL failure. -/
def recordsKunitFailure (tr : List Event) : Bool :=
  tr.any (fun e => match e with
    | Event.kunitFail _ => true
    | _ => false)

/-- Number of successful kprobe registrations in a trace. -/
def regOkCount (tr : List Event) : Nat :=
  tr.countP (fun e => match e with
    | Event.registerKprobe _ ok => ok
    | _ => false)

/-- Number of kprobe unregistrations in a trace. -/
def unregCount (tr : List Event) : Nat :=
  tr.countP (fun e => match e with
    | Event.unregisterKprobe _ => true
    | _ => false)

end LongestSymbol

namespace LongestSymbol

theorem length_pad (s : String) : ("n" ++ s ++ s).length = 2 * s.length + 1 := by
  rw [String.length_append, String.length_append]
  have h : ("n" : String).length = 1 := rfl
  omega

theorem len_DI (name : String) : (DI name).length = 2 * name.length + 1 := by
  show ("s" ++ name ++ name).length = 2 * name.length + 1
  rw [String.length_append, String.length_append]
  have h : ("s" : String).length = 1 := rfl
  omega

theorem len_DDI (name : String) : (DDI name).length = 4 * name.length + 3 := by
  show (DI ("n" ++ name ++ name)).length = 4 * name.length + 3
  rw [len_DI, length_pad]
  omega

theorem len_DDDI (name : String) : (DDDI name).length = 8 * name.length + 7 := by
  show (DDI ("n" ++ name ++ name)).length = 8 * name.length + 7
  rw [len_DDI, length_pad]
  omega

theorem len_DDDDI (name : String) :
    (DDDDI name).length = 16 * name.length + 15 := by
  show (DDDI ("n" ++ name ++ name)).length = 16 * name.length + 15
  rw [len_DDDI, length_pad]
  omega

theorem len_DDDDDI (name : String) :
    (DDDDDI name).length = 32 * name.length + 31 := by
  show (DDDDI ("n" ++ name ++ name)).length = 32 * name.length + 31
  rw [len_DDDDI, length_pad]
  omega

theorem longest_name_len : LONGEST_SYM_NAME.length = 511 := by
  show (DDDDDI seedToken).length = 511
  rw [len_DDDDDI]
  decide

/-- Claim C1: the macro chain DDDDDI applied to the seed token
g1h2i3j4k5l6m7n produces an identifier of exactly 511 characters, and
sizeof of its stringification, which counts the terminating NUL,
equals KSYM_NAME_LEN = 512, as the _Static_assert states. -/
theorem c1_longest_sym_name_length :
    LONGEST_SYM_NAME.length = 511 ∧ sizeofStr LONGEST_SYM_NAME = KSYM_NAME_LEN := by
  exact ⟨longest_name_len, by simp [sizeofStr, longest_name_len, KSYM_NAME_LEN]⟩

/-- Claim C2: the two generated functions are pure constant functions:
every call of the 511-character function returns 424242 and every call
of the 512-character one returns 434343. -/
theorem c2_constant_functions :
    ∀ u : Unit, longestSymFn u = 424242 ∧ longestSymPlus1Fn u = 434343 :=
  fun _ => ⟨rfl, rfl⟩

/-- Claim C6: the token-pasting macros satisfy the recurrence
length(DI(name)) = 2 length(name) + 1 for every token, each further
level DDI through DDDDDI composes the doubling-plus-one once more, so
DDDDDI maps a seed of length n to an identifier of length 32 n + 31,
which is 511 for the 15-character seed. -/
theorem c6_doubling_recurrence :
    (∀ name : String, (DI name).length = 2 * name.length + 1) ∧
    (∀ name : String, (DDI name).length = 2 * (2 * name.length + 1) + 1) ∧
    (∀ name : String,
      (DDDI name).length = 2 * (2 * (2 * name.length + 1) + 1) + 1) ∧
    (∀ name : String,
      (DDDDI name).length = 2 * (2 * (2 * (2 * name.length + 1) + 1) + 1) + 1) ∧
    (∀ name : String, (DDDDDI name).length = 32 * name.length + 31) ∧
    seedToken.length = 15 ∧ (DDDDDI seedToken).length = 511 := by
  refine ⟨len_DI, ?_, ?_, ?_, len_DDDDDI, by decide, ?_⟩
  · intro name; rw [len_DDI]; omega
  · intro name; rw [len_DDDI]; omega
  · intro name; rw [len_DDDDI]; omega
  · rw [len_DDDDDI]; decide

/-- Claim C9: the identifier bound to LONGEST_SYMBOL in the selftest
module has exactly 127 characters; its _Static_assert compares
KSYM_NAME_LEN with strlen of the stringified name, which excludes the
NUL, so it holds exactly for KSYM_NAME_LEN = 127, while the KUnit
file's assert uses sizeof, which always counts one more than strlen,
and holds exactly for KSYM_NAME_LEN = 512. -/
theorem c9_selftest_length_convention :
    LONGEST_SYMBOL.length = 127 ∧
    (∀ k : Nat, (k = strlenStr LONGEST_SYMBOL ↔ k = 127)) ∧
    (∀ k : Nat, (sizeofStr LONGEST_SYM_NAME = k ↔ k = 512)) ∧
    (∀ s : String, sizeofStr s = strlenStr s + 1) := by
  have h1 : strlenStr LONGEST_SYMBOL = 127 := by decide
  have h2 : sizeofStr LONGEST_SYM_NAME = 512 := by
    show LONGEST_SYM_NAME.length + 1 = 512
    rw [longest_name_len]
  exact ⟨h1, fun k => by rw [h1], fun k => by rw [h2]; exact eq_comm, fun s => rfl⟩

theorem lookup_longest : kallsymsLookup LONGEST_SYM_NAME = longestSymAddr := by
  decide

theorem lookup_plus1 : kallsymsLookup LONGEST_SYM_NAME_PLUS1 = 0 := by
  decide

/-- Claim C3: in test_longest_symbol_kallsyms, when register_kprobe on
kallsyms_lookup_name succeeds, the kallsyms lookup of the stringified
511-character name yields the address of the generated function,
calling that address yields 424242, and the test case passes. -/
theorem c3_kallsyms_resolves_longest (regRet : Int) (h : ¬ regRet < 0) :
    (kernelEnv regRet).lookup LONGEST_SYM_NAME = longestSymAddr ∧
    callAt (kernelEnv regRet) longestSymAddr = some 424242 ∧
    testPasses
      (LongestSymbolKunit.test_longest_symbol_kallsyms (kernelEnv regRet)) =
      true := by
  refine ⟨lookup_longest, rfl, ?_⟩
  unfold LongestSymbolKunit.test_longest_symbol_kallsyms
  split
  · exact absurd (by assumption) h
  · simp [testPasses, signalsFailure, callAt, kernelEnv, lookup_longest,
      kernelFunAt, longestSymFn]

theorem c3_kallsyms_resolves_longest_witness :
    ¬ (0 : Int) < 0 ∧
    ((kernelEnv 0).lookup LONGEST_SYM_NAME = longestSymAddr ∧
     callAt (kernelEnv 0) longestSymAddr = some 424242 ∧
     testPasses
       (LongestSymbolKunit.test_longest_symbol_kallsyms (kernelEnv 0)) =
       true) :=
  ⟨by decide, c3_kallsyms_resolves_longest 0 (by decide)⟩

/-- Claim C4 counterexample: the two implementations of
test_longest_symbol_plus1_kallsyms do not assert the same expected
outcome of one shared lookup.  The self-contained version looks up the
512-character macro-expanded name, the header-based version looks up
the 22-character literal LONGEST_SYM_NAME_PLUS1 (the token is not a
macro in that file), the two names differ, and in the environment that
resolves only the 511-character symbol the self-contained test passes
while the header-based test fails. -/
theorem c4_counterexample_plus1_tests_differ :
    Event.kallsymsCall LONGEST_SYM_NAME_PLUS1 ∈
      LongestSymbolKunit.test_longest_symbol_plus1_kallsyms realEnv ∧
    Event.kallsymsCall headerPlus1Identifier ∈
      LongestSymbolKunitV0.test_longest_symbol_plus1_kallsyms realEnv ∧
    LONGEST_SYM_NAME_PLUS1 ≠ headerPlus1Identifier ∧
    testPasses
      (LongestSymbolKunit.test_longest_symbol_plus1_kallsyms realEnv) = true ∧
    testPasses
      (LongestSymbolKunitV0.test_longest_symbol_plus1_kallsyms realEnv) =
      false := by
  exact ⟨by decide, by decide, by decide, by decide, by decide⟩

/-- Claim C4 as amended: the two implementations of
test_longest_symbol_plus1_kallsyms are behaviourally inequivalent and
do not even look up the same name.  When registration succeeds, the
self-contained KUnit version looks up the 512-character macro-expanded
name and passes exactly when that lookup returns NULL, while the
header-based version looks up the 22-character literal
LONGEST_SYM_NAME_PLUS1 and passes exactly when calling the pointer
returned for that different name yields 434343. -/
theorem c4_amended_plus1_tests_inequivalent (env : KernelEnv)
    (hreg : ¬ env.registerKprobeRet < 0) :
    Event.kallsymsCall LONGEST_SYM_NAME_PLUS1 ∈
      LongestSymbolKunit.test_longest_symbol_plus1_kallsyms env ∧
    Event.kallsymsCall headerPlus1Identifier ∈
      LongestSymbolKunitV0.test_longest_symbol_plus1_kallsyms env ∧
    LONGEST_SYM_NAME_PLUS1 ≠ headerPlus1Identifier ∧
    (testPasses
       (LongestSymbolKunit.test_longest_symbol_plus1_kallsyms env) = true ↔
      env.lookup LONGEST_SYM_NAME_PLUS1 = 0) ∧
    (testPasses
       (LongestSymbolKunitV0.test_longest_symbol_plus1_kallsyms env) = true ↔
      env.funAt (env.lookup headerPlus1Identifier) = some 434343) := by
  have hmemA : Event.kallsymsCall LONGEST_SYM_NAME_PLUS1 ∈
      LongestSymbolKunit.test_longest_symbol_plus1_kallsyms env := by
    unfold LongestSymbolKunit.test_longest_symbol_plus1_kallsyms
    split
    · exact absurd (by assumption) hreg
    · simp
  have hmemB : Event.kallsymsCall headerPlus1Identifier ∈
      LongestSymbolKunitV0.test_longest_symbol_plus1_kallsyms env := by
    unfold LongestSymbolKunitV0.test_longest_symbol_plus1_kallsyms
    split
    · exact absurd (by assumption) hreg
    · simp
  have hA : testPasses
      (LongestSymbolKunit.test_longest_symbol_plus1_kallsyms env) = true ↔
      env.lookup LONGEST_SYM_NAME_PLUS1 = 0 := by
    unfold LongestSymbolKunit.test_longest_symbol_plus1_kallsyms
    split
    · exact absurd (by assumption) hreg
    · simp [testPasses, signalsFailure]
  have hB : testPasses
      (LongestSymbolKunitV0.test_longest_symbol_plus1_kallsyms env) = true ↔
      env.funAt (env.lookup headerPlus1Identifier) = some 434343 := by
    unfold LongestSymbolKunitV0.test_longest_symbol_plus1_kallsyms
    split
    · exact absurd (by assumption) hreg
    · simp [testPasses, signalsFailure, callAt]
  exact ⟨hmemA, hmemB, by decide, hA, hB⟩

theorem c4_amended_witness :
    ¬ realEnv.registerKprobeRet < 0 ∧
    (Event.kallsymsCall LONGEST_SYM_NAME_PLUS1 ∈
       LongestSymbolKunit.test_longest_symbol_plus1_kallsyms realEnv ∧
     Event.kallsymsCall headerPlus1Identifier ∈
       LongestSymbolKunitV0.test_longest_symbol_plus1_kallsyms realEnv ∧
     LONGEST_SYM_NAME_PLUS1 ≠ headerPlus1Identifier ∧
     (testPasses
        (LongestSymbolKunit.test_longest_symbol_plus1_kallsyms realEnv) =
        true ↔
       realEnv.lookup LONGEST_SYM_NAME_PLUS1 = 0) ∧
     (testPasses
        (LongestSymbolKunitV0.test_longest_symbol_plus1_kallsyms realEnv) =
        true ↔
       realEnv.funAt (realEnv.lookup headerPlus1Identifier) = some 434343)) :=
  ⟨by decide, c4_amended_plus1_tests_inequivalent realEnv (by decide)⟩

/-- Claim C7: every failure manifests as a KUnit assertion mismatch: in
each kallsyms test case of both KUnit files, a failing register_kprobe
makes the case record a KUNIT_FAIL and return without performing the
kallsyms lookup, and across all eight test cases every event that
signals failure belongs to the KUnit assertion channel. -/
theorem c7_failures_only_through_kunit :
    (∀ env : KernelEnv, env.registerKprobeRet < 0 →
      recordsKunitFailure
        (LongestSymbolKunit.test_longest_symbol_kallsyms env) = true ∧
      performsLookup
        (LongestSymbolKunit.test_longest_symbol_kallsyms env) = false ∧
      recordsKunitFailure
        (LongestSymbolKunit.test_longest_symbol_plus1_kallsyms env) = true ∧
      performsLookup
        (LongestSymbolKunit.test_longest_symbol_plus1_kallsyms env) = false ∧
      recordsKunitFailure
        (LongestSymbolKunitV0.test_longest_symbol_kallsyms env) = true ∧
      performsLookup
        (LongestSymbolKunitV0.test_longest_symbol_kallsyms env) = false ∧
      recordsKunitFailure
        (LongestSymbolKunitV0.test_longest_symbol_plus1_kallsyms env) = true ∧
      performsLookup
        (LongestSymbolKunitV0.test_longest_symbol_plus1_kallsyms env) =
        false) ∧
    (∀ env : KernelEnv,
      ((LongestSymbolKunit.test_longest_symbol env ++
        LongestSymbolKunit.test_longest_symbol_kallsyms env ++
        LongestSymbolKunit.test_longest_symbol_plus1 env ++
        LongestSymbolKunit.test_longest_symbol_plus1_kallsyms env ++
        LongestSymbolKunitV0.test_longest_symbol env ++
        LongestSymbolKunitV0.test_longest_symbol_kallsyms env ++
        LongestSymbolKunitV0.test_longest_symbol_plus1 env ++
        LongestSymbolKunitV0.test_longest_symbol_plus1_kallsyms env).all
          (fun e => !signalsFailure e || isKunitCheck e)) = true) := by
  constructor
  · intro env h
    refine ⟨?_, ?_, ?_, ?_, ?_, ?_, ?_, ?_⟩ <;>
      simp [LongestSymbolKunit.test_longest_symbol_kallsyms,
        LongestSymbolKunit.test_longest_symbol_plus1_kallsyms,
        LongestSymbolKunitV0.test_longest_symbol_kallsyms,
        LongestSymbolKunitV0.test_longest_symbol_plus1_kallsyms,
        h, recordsKunitFailure, performsLookup]
  · intro env
    by_cases h : env.registerKprobeRet < 0 <;>
      simp [LongestSymbolKunit.test_longest_symbol,
        LongestSymbolKunit.test_longest_symbol_kallsyms,
        LongestSymbolKunit.test_longest_symbol_plus1,
        LongestSymbolKunit.test_longest_symbol_plus1_kallsyms,
        LongestSymbolKunitV0.test_longest_symbol,
        LongestSymbolKunitV0.test_longest_symbol_kallsyms,
        LongestSymbolKunitV0.test_longest_symbol_plus1,
        LongestSymbolKunitV0.test_longest_symbol_plus1_kallsyms,
        h, signalsFailure, isKunitCheck]

theorem c7_witness :
    (kernelEnv (-1)).registerKprobeRet < 0 ∧
    (recordsKunitFailure
       (LongestSymbolKunit.test_longest_symbol_kallsyms (kernelEnv (-1))) =
       true ∧
     performsLookup
       (LongestSymbolKunit.test_longest_symbol_kallsyms (kernelEnv (-1))) =
       false ∧
     recordsKunitFailure
       (LongestSymbolKunit.test_longest_symbol_plus1_kallsyms
         (kernelEnv (-1))) = true ∧
     performsLookup
       (LongestSymbolKunit.test_longest_symbol_plus1_kallsyms
         (kernelEnv (-1))) = false ∧
     recordsKunitFailure
       (LongestSymbolKunitV0.test_longest_symbol_kallsyms (kernelEnv (-1))) =
       true ∧
     performsLookup
       (LongestSymbolKunitV0.test_longest_symbol_kallsyms (kernelEnv (-1))) =
       false ∧
     recordsKunitFailure
       (LongestSymbolKunitV0.test_longest_symbol_plus1_kallsyms
         (kernelEnv (-1))) = true ∧
     performsLookup
       (LongestSymbolKunitV0.test_longest_symbol_plus1_kallsyms
         (kernelEnv (-1))) = false) :=
  ⟨by decide, c7_failures_only_through_kunit.1 (kernelEnv (-1)) (by decide)⟩

/-- Claim C8: kprobe pairing invariant: in each kallsyms test case of
both KUnit files and in check_longest_symbol_exported, the number of
successful kprobe registrations in the emitted trace equals the number
of unregistrations, so no kprobe registered by this code remains
registered after any entry point completes. -/
theorem c8_kprobe_unregister_pairing (env : KernelEnv) :
    regOkCount (LongestSymbolKunit.test_longest_symbol_kallsyms env) =
      unregCount (LongestSymbolKunit.test_longest_symbol_kallsyms env) ∧
    regOkCount (LongestSymbolKunit.test_longest_symbol_plus1_kallsyms env) =
      unregCount
        (LongestSymbolKunit.test_longest_symbol_plus1_kallsyms env) ∧
    regOkCount (LongestSymbolKunitV0.test_longest_symbol_kallsyms env) =
      unregCount (LongestSymbolKunitV0.test_longest_symbol_kallsyms env) ∧
    regOkCount (LongestSymbolKunitV0.test_longest_symbol_plus1_kallsyms env) =
      unregCount
        (LongestSymbolKunitV0.test_longest_symbol_plus1_kallsyms env) ∧
    regOkCount (check_longest_symbol_exported env).2 =
      unregCount (check_longest_symbol_exported env).2 := by
  have hcheck : regOkCount (check_longest_symbol_exported env).2 =
      unregCount (check_longest_symbol_exported env).2 := by
    by_cases h : env.registerKprobeRet < 0 <;>
      by_cases h2 : env.lookup LONGEST_SYMBOL = 0 <;>
      simp [check_longest_symbol_exported, h, h2, regOkCount, unregCount]
  by_cases h : env.registerKprobeRet < 0 <;>
    refine ⟨?_, ?_, ?_, ?_, hcheck⟩ <;>
    simp [LongestSymbolKunit.test_longest_symbol_kallsyms,
      LongestSymbolKunit.test_longest_symbol_plus1_kallsyms,
      LongestSymbolKunitV0.test_longest_symbol_kallsyms,
      LongestSymbolKunitV0.test_longest_symbol_plus1_kallsyms,
      h, regOkCount, unregCount]

/-- Claim C10: check_longest_symbol_exported returns 0 exactly when
register_kprobe succeeds and the kallsyms lookup of the stringified
LONGEST_SYMBOL returns a non-zero address; in every other case it
returns 1 after printing a diagnostic, and the selftest then counts a
check failure. -/
theorem c10_check_exported_result (env : KernelEnv) (st : KstmState) :
    ((check_longest_symbol_exported env).1 = 0 ↔
      ¬ env.registerKprobeRet < 0 ∧ env.lookup LONGEST_SYMBOL ≠ 0) ∧
    ((check_longest_symbol_exported env).1 ≠ 0 →
      (check_longest_symbol_exported env).1 = 1 ∧
      (∃ msg, Event.prInfo msg ∈ (check_longest_symbol_exported env).2) ∧
      (selftest true env st).failed_tests = st.failed_tests + 1) ∧
    ((check_longest_symbol_exported env).1 = 0 →
      (selftest true env st).failed_tests = st.failed_tests) := by
  by_cases h : env.registerKprobeRet < 0
  · refine ⟨by simp [check_longest_symbol_exported, h], ?_, ?_⟩
    · intro _
      refine ⟨by simp [check_longest_symbol_exported, h],
        ⟨"test_longest_symbol: kprobe not registered",
          by simp [check_longest_symbol_exported, h]⟩,
        by simp [selftest, KSTM_CHECK_ZERO, check_longest_symbol_exported, h]⟩
    · intro h0
      exfalso
      revert h0
      simp [check_longest_symbol_exported, h]
  · by_cases h2 : env.lookup LONGEST_SYMBOL = 0
    · refine ⟨by simp [check_longest_symbol_exported, h, h2], ?_, ?_⟩
      · intro _
        refine ⟨by simp [check_longest_symbol_exported, h, h2],
          ⟨"test_longest_symbol: longest_symbol not found",
            by simp [check_longest_symbol_exported, h, h2]⟩,
          by simp [selftest, KSTM_CHECK_ZERO, check_longest_symbol_exported,
            h, h2]⟩
      · intro h0
        exfalso
        revert h0
        simp [check_longest_symbol_exported, h, h2]
    · refine ⟨by simp [check_longest_symbol_exported, h, h2], ?_, ?_⟩
      · intro h0
        exfalso
        revert h0
        simp [check_longest_symbol_exported, h, h2]
      · intro _
        simp [selftest, KSTM_CHECK_ZERO, check_longest_symbol_exported, h, h2]

theorem c10_witness :
    (check_longest_symbol_exported (kernelEnv (-1))).1 ≠ 0 ∧
    ((check_longest_symbol_exported (kernelEnv (-1))).1 = 1 ∧
     (∃ msg, Event.prInfo msg ∈
        (check_longest_symbol_exported (kernelEnv (-1))).2) ∧
     (selftest true (kernelEnv (-1)) (KstmState.mk 0 0)).failed_tests =
       (KstmState.mk 0 0).failed_tests + 1) :=
  ⟨by decide,
   (c10_check_exported_result (kernelEnv (-1)) (KstmState.mk 0 0)).2.1
     (by decide)⟩

theorem c9_witness :
    ((127 : Nat) = strlenStr LONGEST_SYMBOL ↔ (127 : Nat) = 127) ∧
    (sizeofStr LONGEST_SYM_NAME = 512 ↔ (512 : Nat) = 512) ∧
    sizeofStr "x" = strlenStr "x" + 1 :=
  ⟨c9_selftest_length_convention.2.1 127,
   c9_selftest_length_convention.2.2.1 512,
   c9_selftest_length_convention.2.2.2 "x"⟩

end LongestSymbol
